import Mathlib

/- Verification development for the Bifrost request-routing core
   (core/bifrost.go).  The Go code is embedded shallowly: pure control
   flow becomes Lean functions, channel/select nondeterminism is
   resolved by explicit oracle parameters, and observable side effects
   (which plugin hooks ran, how many adapter calls were made) are
   returned as explicit traces. -/

namespace Bifrost

/- ----------------------------------------------------------------
   Request kinds (bifrost.go lines 20-32, RequestType constants).
   ---------------------------------------------------------------- -/

/-- The eight request kinds of the core (RequestType constants). -/
inductive RequestType where
  | textCompletion
  | chatCompletion
  | chatCompletionStream
  | embedding
  | speech
  | speechStream
  | transcription
  | transcriptionStream
deriving DecidableEq, Repr

/-- Modelled from the spec: the helper `isStreamRequestType` is declared
outside the provided source file; per the spec the streaming kinds are
exactly chat-completion stream, speech stream and transcription stream
(the three kinds routed through `handleStreamRequest`). -/
def isStreamRequestType : RequestType → Bool
  | RequestType.chatCompletionStream => true
  | RequestType.speechStream => true
  | RequestType.transcriptionStream => true
  | _ => false

/- ----------------------------------------------------------------
   Error structure (spec section 6 wire surface; used throughout
   bifrost.go).  `cause` stands for the opaque `Error.Error` field;
   only its presence is ever inspected by the core.
   ---------------------------------------------------------------- -/

/-- The nested `Error` field of a BifrostError: optional type tag,
message and optional opaque cause. -/
structure ErrorField where
  type : Option String
  message : String
  cause : Option String
deriving DecidableEq, Repr

/-- The structured error surfaced by the core (schemas.BifrostError):
IsBifrostError flag, optional status code, error field, optional
AllowFallbacks flag and provider tag (zero value: empty string). -/
structure BifrostError where
  isBifrostError : Bool
  statusCode : Option Nat
  error : ErrorField
  allowFallbacks : Option Bool
  provider : String
deriving DecidableEq, Repr

/-- The cancellation error type tag (schemas.RequestCancelled). -/
def RequestCancelled : String := "request_cancelled"

/-- The retryable status set (bifrost.go lines 77-83). -/
def retryableStatusCodes (code : Nat) : Bool :=
  code == 500 || code == 502 || code == 503 || code == 504 || code == 429

/-- Opaque successful response payload; the core never inspects its
contents, so an identifier suffices. -/
structure BifrostResponse where
  id : String
deriving DecidableEq, Repr

/-- A fallback entry: provider tag plus model override
(schemas.Fallback). -/
structure Fallback where
  provider : String
  model : String
deriving DecidableEq, Repr

/-- The typed input of a request: exactly one of the five input fields
is expected to be populated (schemas.RequestInput). -/
structure RequestInput where
  textCompletionInput : Option String
  chatCompletionInput : Option (List String)
  embeddingInput : Option (List String)
  speechInput : Option String
  transcriptionInput : Option String
deriving DecidableEq, Repr

/-- The request envelope: provider tag, model, typed input, ordered
fallbacks (schemas.BifrostRequest; parameters are irrelevant to the
claims and omitted). -/
structure BifrostRequest where
  provider : String
  model : String
  input : RequestInput
  fallbacks : List Fallback
deriving DecidableEq, Repr

/- ----------------------------------------------------------------
   C8: MCP tool merge routing.
   tryRequest (lines 930-933) merges unless the kind is embedding or
   speech; tryStreamRequest (lines 1020-1023) merges unless the kind
   is speech-stream or transcription-stream.  Streaming kinds reach
   tryStreamRequest, the rest reach tryRequest.
   ---------------------------------------------------------------- -/

/-- Whether the dispatcher merges MCP tool descriptors into the request
parameters for a given kind, assuming an MCP manager is configured:
the guard of tryRequest line 931 on the non-streaming path, the guard
of tryStreamRequest line 1021 on the streaming path. -/
def mcpToolsMerged (requestType : RequestType) : Bool :=
  if isStreamRequestType requestType then
    requestType != RequestType.speechStream &&
      requestType != RequestType.transcriptionStream
  else
    requestType != RequestType.embedding && requestType != RequestType.speech

/- ----------------------------------------------------------------
   C4: queue admission (tryRequest lines 964-983; identical block in
   tryStreamRequest lines 1054-1073).  The Go select statements are
   embedded with oracle parameters: `tieBreak` resolves the random
   choice of the first (non-blocking) select when both the send and
   the cancellation case are ready, `firstEvent` tells which event
   fires first while the second (blocking) select waits.
   ---------------------------------------------------------------- -/

/-- Events the admission selects can observe: queue space becoming
available, or the cancellation token of the caller firing. -/
inductive AdmitEvent where
  | space
  | cancel
deriving DecidableEq, Repr

/-- Outcome of queue admission. -/
inductive AdmitOutcome where
  | enqueued
  | cancelled (msg : String)
  | dropped (msg : String)
deriving DecidableEq, Repr

/-- Queue admission (tryRequest lines 964-983): first select is
non-blocking (it has a default case); when the queue is full and the
context is live, the default branch consults the drop-excess flag and
either fails with the queue-full error or falls into the blocking
select, which waits for space or cancellation. -/
def admitToQueue (queueFull ctxDone dropExcess : Bool)
    (tieBreak firstEvent : AdmitEvent) : AdmitOutcome :=
  if !queueFull && !ctxDone then AdmitOutcome.enqueued
  else if !queueFull && ctxDone then
    match tieBreak with
    | AdmitEvent.space => AdmitOutcome.enqueued
    | AdmitEvent.cancel =>
        AdmitOutcome.cancelled "request cancelled while waiting for queue space"
  else if ctxDone then
    AdmitOutcome.cancelled "request cancelled while waiting for queue space"
  else if dropExcess then
    AdmitOutcome.dropped "request dropped: queue is full"
  else
    match firstEvent with
    | AdmitEvent.space => AdmitOutcome.enqueued
    | AdmitEvent.cancel =>
        AdmitOutcome.cancelled "request cancelled while waiting for queue space"

/- ----------------------------------------------------------------
   C5: final reconciliation of RunPostHooks (lines 1323-1332).
   ---------------------------------------------------------------- -/

/-- A BifrostError is structurally empty when it has no status code,
no error type, an empty message and no cause (the test on lines
1325-1326). -/
def isEmptyError (e : BifrostError) : Bool :=
  e.statusCode == none && e.error.type == none &&
    e.error.message == "" && e.error.cause == none

/-- Final reconciliation at the end of RunPostHooks (lines 1323-1332):
with an error present, a present response wins only if the error is
structurally empty; otherwise the error is kept. -/
def reconcilePostHookResult (resp : Option BifrostResponse)
    (bifrostErr : Option BifrostError) :
    Option BifrostResponse × Option BifrostError :=
  match bifrostErr with
  | some e =>
    if resp.isSome && isEmptyError e then (resp, none)
    else (resp, some e)
  | none => (resp, none)

/- ----------------------------------------------------------------
   Plugin pipeline (PluginPipeline.RunPreHooks lines 1284-1299,
   PluginPipeline.RunPostHooks lines 1304-1333, and their use by
   tryRequest lines 935-1004).  The hooks of a plugin are embedded as Lean
   functions; the Go nil request pointer becomes an Option.  The third
   component returned by a hook is its (logged, non-control-flow)
   error.  The embedding additionally returns the trace of plugin
   names invoked, the observable effect the claims speak about.
   ---------------------------------------------------------------- -/

/-- A plugin short-circuit decision: optional response, optional error
(schemas.PluginShortCircuit; both fields are pointers in Go and may be
nil). -/
structure PluginShortCircuit where
  response : Option BifrostResponse
  error : Option BifrostError
deriving DecidableEq, Repr

/-- A plugin as the pipeline sees it: a name, a PreHook and a PostHook
(schemas.Plugin).  Hook errors are returned but only logged by the
pipeline, so their content is an opaque string. -/
structure PluginHooks where
  name : String
  preHook : Option BifrostRequest →
    Option BifrostRequest × Option PluginShortCircuit × Option String
  postHook : Option BifrostResponse → Option BifrostError →
    Option BifrostResponse × Option BifrostError × Option String

/-- RunPreHooks (lines 1284-1299): run PreHooks in registration order,
stop after the first plugin returning a short-circuit; return the final
request, the short-circuit decision, the number of PreHooks executed
and the trace of plugin names invoked. -/
def runPreHooks : Option BifrostRequest → List PluginHooks →
    Option BifrostRequest × Option PluginShortCircuit × Nat × List String
  | req, [] => (req, none, 0, [])
  | req, p :: rest =>
    let step := p.preHook req
    match step.2.1 with
    | some sc => (step.1, some sc, 1, [p.name])
    | none =>
      let tail := runPreHooks step.1 rest
      (tail.1, tail.2.1, tail.2.2.1 + 1, p.name :: tail.2.2.2)

/-- The body of the RunPostHooks loop (lines 1312-1322), applied to the
plugins listed in the order they are visited (index count-1 down to 0);
returns the transformed response/error pair and the trace of plugin
names invoked. -/
def runPostHooksLoop (resp : Option BifrostResponse)
    (bifrostErr : Option BifrostError) :
    List PluginHooks → Option BifrostResponse × Option BifrostError × List String
  | [] => (resp, bifrostErr, [])
  | p :: rest =>
    let step := p.postHook resp bifrostErr
    let tail := runPostHooksLoop step.1 step.2.1 rest
    (tail.1, tail.2.1, p.name :: tail.2.2)

/-- RunPostHooks (lines 1304-1333): clamp the count into [0, number of
plugins] (lines 1306-1311), run the PostHooks of the first `count`
plugins in reverse registration order, then apply the final
reconciliation (lines 1323-1332). -/
def runPostHooks (plugins : List PluginHooks) (resp : Option BifrostResponse)
    (bifrostErr : Option BifrostError) (count : Nat) :
    Option BifrostResponse × Option BifrostError × List String :=
  let cnt := min count plugins.length
  let looped := runPostHooksLoop resp bifrostErr ((plugins.take cnt).reverse)
  let final := reconcilePostHookResult looped.1 looped.2.1
  (final.1, final.2, looped.2.2)

/-- How a tryRequest pipeline run ended: short-circuit with a response
(lines 940-947), short-circuit with an error (lines 948-955), the
nil-request guard (lines 957-959), or the adapter path (lines 985-1004)
with success or failure. -/
inductive PipelineEnd where
  | shortCircuitResponse
  | shortCircuitError
  | nilRequest
  | adapterSuccess
  | adapterFailure
deriving DecidableEq, Repr

/-- Outcome of one provider attempt: a response or a structured error. -/
inductive AdapterOutcome where
  | ok (r : BifrostResponse)
  | fail (e : BifrostError)
deriving DecidableEq, Repr

/-- The observable result of one tryRequest pipeline run: final
response/error, how the run ended, the executed PreHook count and the
two hook traces. -/
structure PipelineRun where
  response : Option BifrostResponse
  error : Option BifrostError
  endMode : PipelineEnd
  preCount : Nat
  preTrace : List String
  postTrace : List String
deriving Repr

/-- Shared epilogue of every tryRequest return path that runs post-hooks
(lines 942-947, 950-955, 988-995, 996-1003): if the post-hook result
carries an error the response is dropped and the error returned,
otherwise the response is returned. -/
def finishPipeline (out : Option BifrostResponse × Option BifrostError × List String)
    (mode : PipelineEnd) (preCount : Nat) (preTrace : List String) : PipelineRun :=
  match out.2.1 with
  | some e => ⟨none, some e, mode, preCount, preTrace, out.2.2⟩
  | none => ⟨out.1, none, mode, preCount, preTrace, out.2.2⟩

/-- The code of tryRequest after the short-circuit checks: the
nil-request guard (lines 957-959) and the enqueue/await/post-hook path
(lines 961-1004), with the queue, worker and adapter summarised by the
`adapter` oracle. -/
def tryRequestAdapterLeg (plugins : List PluginHooks)
    (adapter : BifrostRequest → AdapterOutcome)
    (preReq : Option BifrostRequest) (preCount : Nat)
    (preTrace : List String) : PipelineRun :=
  match preReq with
  | none =>
    ⟨none,
     some ⟨false, none,
       ⟨none, "bifrost request after plugin hooks cannot be nil", none⟩,
       none, ""⟩,
     PipelineEnd.nilRequest, preCount, preTrace, []⟩
  | some rq =>
    match adapter rq with
    | AdapterOutcome.ok r =>
      finishPipeline (runPostHooks plugins (some r) none plugins.length)
        PipelineEnd.adapterSuccess preCount preTrace
    | AdapterOutcome.fail e =>
      finishPipeline (runPostHooks plugins none (some e) plugins.length)
        PipelineEnd.adapterFailure preCount preTrace

/-- The plugin-pipeline portion of tryRequest (lines 935-1004): run
pre-hooks; on a short-circuit carrying a response or an error, run
post-hooks over the executed prefix; a short-circuit carrying neither
falls through to the adapter leg, exactly as the two nil checks on
lines 941 and 949 do. -/
def tryRequestPipeline (plugins : List PluginHooks)
    (adapter : BifrostRequest → AdapterOutcome) (req : BifrostRequest) :
    PipelineRun :=
  let pre := runPreHooks (some req) plugins
  let preReq := pre.1
  let preCount := pre.2.2.1
  let preTrace := pre.2.2.2
  match pre.2.1 with
  | some sc =>
    match sc.response with
    | some r0 =>
      finishPipeline (runPostHooks plugins (some r0) none preCount)
        PipelineEnd.shortCircuitResponse preCount preTrace
    | none =>
      match sc.error with
      | some e0 =>
        finishPipeline (runPostHooks plugins none (some e0) preCount)
          PipelineEnd.shortCircuitError preCount preTrace
      | none => tryRequestAdapterLeg plugins adapter preReq preCount preTrace
  | none => tryRequestAdapterLeg plugins adapter preReq preCount preTrace

/- ----------------------------------------------------------------
   C1: the worker retry loop (requestWorker lines 1149-1187).
   The sequence of adapter results is an oracle indexed by attempt
   number; the embedding returns how many adapter calls were made and
   the final outcome held in `bifrostError`/`result` when the loop
   exits.
   ---------------------------------------------------------------- -/

/-- The non-streaming break after the adapter call (lines 1172-1175):
break on any error. -/
def nonStreamAttemptBreaks : AdapterOutcome → Bool
  | AdapterOutcome.ok _ => false
  | AdapterOutcome.fail _ => true

/-- The streaming break after the adapter call (lines 1167-1170):
break on an error whose IsBifrostError flag is false. -/
def streamAttemptBreaks : AdapterOutcome → Bool
  | AdapterOutcome.ok _ => false
  | AdapterOutcome.fail e => !e.isBifrostError

/-- The retry decision at the bottom of the loop body (lines
1181-1186): stop on success, on an infrastructural (IsBifrostError)
error, on a non-retryable status code, or on cancellation. -/
def retryCheckBreaks : AdapterOutcome → Bool
  | AdapterOutcome.ok _ => true
  | AdapterOutcome.fail e =>
    e.isBifrostError ||
      (match e.statusCode with
       | some c => !retryableStatusCodes c
       | none => false) ||
      e.error.type == some RequestCancelled

/-- The retry loop body from attempt `a` with `remaining` further
iterations allowed by the loop condition `attempts <= maxRetries`
(lines 1149-1187).  Returns (number of adapter calls, last outcome). -/
def workerLoopFrom (isStream : Bool) (outcomes : Nat → AdapterOutcome) :
    Nat → Nat → Nat × AdapterOutcome
  | 0, a => (a + 1, outcomes a)
  | remaining + 1, a =>
    let out := outcomes a
    let breaks :=
      if isStream then streamAttemptBreaks out || retryCheckBreaks out
      else nonStreamAttemptBreaks out || retryCheckBreaks out
    if breaks then (a + 1, out)
    else workerLoopFrom isStream outcomes remaining (a + 1)

/-- The whole retry loop of requestWorker for one admission: attempts
run from 0 while `attempts <= maxRetries`. -/
def workerAttempts (isStream : Bool) (outcomes : Nat → AdapterOutcome)
    (maxRetries : Nat) : Nat × AdapterOutcome :=
  workerLoopFrom isStream outcomes maxRetries 0

/- ----------------------------------------------------------------
   C6 / C10: credential selection
   (selectKeyFromProviderForModel, lines 1422-1468).
   Weights are float64 in Go; they are embedded as rationals, and the
   Go conversion int(weight*100) (truncation toward zero) as Int.div
   of the numerator by the denominator.  The random draw of
   rand.Intn(totalWeight) is an oracle parameter; Intn panics when its
   argument is not positive, which the embedding makes explicit.
   ---------------------------------------------------------------- -/

/-- A provider credential: value string, supported models (empty =
wildcard), weight (schemas.Key). -/
structure Key where
  value : String
  models : List String
  weight : Rat
deriving DecidableEq, Repr

/-- The Go conversion int(w * 100): truncation toward zero. -/
def goInt100 (w : Rat) : Int :=
  Int.tdiv (w * 100).num ((w * 100).den : Int)

/-- Drop leading and trailing whitespace from a character list
(structural rendering of strings.TrimSpace). -/
def trimSpaceList (l : List Char) : List Char :=
  ((l.dropWhile Char.isWhitespace).reverse.dropWhile Char.isWhitespace).reverse

/-- strings.TrimSpace as used on line 1435. -/
def goTrimSpace (s : String) : String :=
  String.mk (trimSpaceList s.data)

/-- The filter of line 1435: keep a key when its model list contains
the model and its trimmed value is non-empty or the provider is
Vertex, or when its model list is empty. -/
def keySupportsModel (providerKey model : String) (k : Key) : Bool :=
  (k.models.contains model &&
    (goTrimSpace k.value != "" || providerKey == "vertex")) || k.models.isEmpty

/-- Result of credential selection: a key, an error message, or a
runtime panic (rand.Intn with a non-positive argument). -/
inductive KeySelection where
  | selected (k : Key)
  | failed (msg : String)
  | panicked (msg : String)
deriving DecidableEq, Repr

/-- The accumulating walk of lines 1459-1465: add the scaled weight of each key to the running sum and return the first key whose cumulative
weight exceeds the random value. -/
def pickByWeight (randomValue : Int) :
    List Key → Int → Option Key
  | [], _ => none
  | k :: rest, currentWeight =>
    let cw := currentWeight + goInt100 k.weight
    if randomValue < cw then some k else pickByWeight randomValue rest cw

/-- The tail of selectKeyFromProviderForModel from line 1440 on, as a
function of the filtered key list: fail when no key survives the
filter (lines 1440-1442); return a sole survivor (lines 1444-1446);
otherwise select by weighted random (lines 1448-1468), panicking as
rand.Intn does when the scaled weights sum to a non-positive total,
and falling back to the first survivor when the walk selects none
(line 1468). -/
def selectFromSupported (model : String) (randomValue : Int) :
    List Key → KeySelection
  | [] => KeySelection.failed ("no keys found that support model: " ++ model)
  | [k] => KeySelection.selected k
  | k0 :: k1 :: rest =>
    let supportedKeys := k0 :: k1 :: rest
    let totalWeight := (supportedKeys.map fun k => goInt100 k.weight).sum
    if totalWeight ≤ 0 then KeySelection.panicked "invalid argument to Intn"
    else
      match pickByWeight randomValue supportedKeys 0 with
      | some k => KeySelection.selected k
      | none => KeySelection.selected k0

/-- selectKeyFromProviderForModel (lines 1422-1468): fail when the
provider has no keys at all (lines 1428-1430); otherwise filter to the
keys supporting the model (lines 1433-1438) and select from the
survivors. -/
def selectKeyFromProviderForModel (providerKey model : String)
    (keys : List Key) (randomValue : Int) : KeySelection :=
  if keys.isEmpty then
    KeySelection.failed ("no keys found for provider: " ++ providerKey)
  else
    selectFromSupported model randomValue
      (keys.filter (keySupportsModel providerKey model))

/-- The keep-condition as the claim words it, for refinement
comparison: a key survives when its supported-model list contains the
requested model or is empty (wildcard). -/
def claimKeySurvives (model : String) (k : Key) : Bool :=
  k.models.contains model || k.models.isEmpty

/- ----------------------------------------------------------------
   C3 / C9: the fallback cascade and provider tagging
   (shouldTryFallbacks lines 765-792, prepareFallbackRequest lines
   796-809, shouldContinueWithFallbacks lines 813-827, handleRequest
   lines 833-871) and the public entry validation (ChatCompletionRequest
   lines 208-219).  tryRequest outcomes are summarised by an oracle
   keyed on the attempted provider and model; provider-config presence
   by a `hasConfig` oracle; `validateRequest` (declared outside the
   provided source) by a `validate` oracle, whose error handleRequest
   tags with the provider of the request (line 835).
   ---------------------------------------------------------------- -/

/-- Stamp a provider tag onto an error (the assignments
`err.Provider = ...` throughout handleRequest and its helpers). -/
def tagProvider (e : BifrostError) (p : String) : BifrostError :=
  { e with provider := p }

/-- Whether an error is a request cancellation (the test on lines 772,
814, 1184). -/
def isCancelledError (e : BifrostError) : Bool :=
  e.error.type == some RequestCancelled

/-- Whether an error explicitly forbids fallbacks (the test on lines
779, 820): AllowFallbacks present and false. -/
def deniesFallbacks (e : BifrostError) : Bool :=
  e.allowFallbacks == some false

/-- shouldTryFallbacks (lines 765-792): with no primary error, or a
cancellation, or an explicit no-fallbacks flag, or an empty fallback
list, do not cascade (tagging the error with the primary provider);
otherwise cascade.  Returns the decision and the possibly-tagged
error. -/
def shouldTryFallbacks (req : BifrostRequest)
    (primaryErr : Option BifrostError) : Bool × Option BifrostError :=
  match primaryErr with
  | none => (false, none)
  | some e =>
    if isCancelledError e then (false, some (tagProvider e req.provider))
    else if deniesFallbacks e then (false, some (tagProvider e req.provider))
    else if req.fallbacks.isEmpty then (false, some (tagProvider e req.provider))
    else (true, some e)

/-- shouldContinueWithFallbacks (lines 813-827): a cancellation or
no-fallbacks error aborts the cascade carrying the provider tag of the failing fallback; any other error lets the cascade continue. -/
def shouldContinueWithFallbacks (fb : Fallback) (e : BifrostError) :
    Bool × BifrostError :=
  if isCancelledError e then (false, tagProvider e fb.provider)
  else if deniesFallbacks e then (false, tagProvider e fb.provider)
  else (true, e)

/-- The fallback loop of handleRequest (lines 849-870): skip entries
without provider config (prepareFallbackRequest returning nil), return
the first success, abort on a cancellation or no-fallbacks error, and
after exhausting the list return the primary error tagged with the
primary provider (lines 868-870). -/
def runFallbacks (hasConfig : String → Bool)
    (attempt : String → String → AdapterOutcome)
    (req : BifrostRequest) (primaryErr : BifrostError) :
    List Fallback → Option BifrostResponse × Option BifrostError
  | [] => (none, some (tagProvider primaryErr req.provider))
  | fb :: rest =>
    if !hasConfig fb.provider then
      runFallbacks hasConfig attempt req primaryErr rest
    else
      match attempt fb.provider fb.model with
      | AdapterOutcome.ok r => (some r, none)
      | AdapterOutcome.fail fe =>
        let cont := shouldContinueWithFallbacks fb fe
        if cont.1 then runFallbacks hasConfig attempt req primaryErr rest
        else (none, some cont.2)

/-- handleRequest (lines 833-871): validate (tagging a validation
error with the provider of the request, line 835), try the primary
provider, and consult shouldTryFallbacks before iterating the
fallback list. -/
def handleRequest (validate : BifrostRequest → Option BifrostError)
    (hasConfig : String → Bool)
    (attempt : String → String → AdapterOutcome)
    (req : BifrostRequest) : Option BifrostResponse × Option BifrostError :=
  match validate req with
  | some verr => (none, some (tagProvider verr req.provider))
  | none =>
    match attempt req.provider req.model with
    | AdapterOutcome.ok r => (some r, none)
    | AdapterOutcome.fail e =>
      let decision := shouldTryFallbacks req (some e)
      if decision.1 then runFallbacks hasConfig attempt req e req.fallbacks
      else (none, decision.2)

/-- The public ChatCompletionRequest method (lines 208-219): when the
chat input is absent, return a fresh validation error whose fields
other than the message keep their zero values (in particular
Provider = empty string); otherwise delegate to handleRequest. -/
def chatCompletionRequestMethod (validate : BifrostRequest → Option BifrostError)
    (hasConfig : String → Bool)
    (attempt : String → String → AdapterOutcome)
    (req : BifrostRequest) : Option BifrostResponse × Option BifrostError :=
  match req.input.chatCompletionInput with
  | none =>
    (none,
     some ⟨false, none,
       ⟨none, "chats not provided for chat completion request", none⟩,
       none, ""⟩)
  | some _ => handleRequest validate hasConfig attempt req

/-- Whether a fallback entry lets the cascade move past it: either its
provider has no config (it is skipped), or its attempt fails with an
error that is neither a cancellation nor an explicit no-fallbacks
error. -/
def fallbackSkipsOrFails (hasConfig : String → Bool)
    (attempt : String → String → AdapterOutcome) (fb : Fallback) : Bool :=
  !hasConfig fb.provider ||
    (match attempt fb.provider fb.model with
     | AdapterOutcome.ok _ => false
     | AdapterOutcome.fail fe => !isCancelledError fe && !deniesFallbacks fe)

/- ----------------------------------------------------------------
   C7: the buffered-queue transfer of UpdateProviderConcurrency
   (lines 344-408).  The drain loop (lines 351-388) pops buffered
   messages from the old queue and forwards them to the new queue
   while it has free slots; the first message that finds the new
   queue full is handed to a bounded (5 s) asynchronous transfer and
   the loop stops (the goto on line 382), leaving the rest in the old
   queue, which is then closed so the departing workers drain it.
   `free` is the number of free slots in the new queue (its buffer
   size: no dispatcher can enqueue into it while the provider write
   lock is held).
   ---------------------------------------------------------------- -/

/-- The disposition of the buffered messages after the drain loop:
those forwarded to the new queue, the single message handed to the
asynchronous 5-second transfer, and those left in the old queue. -/
structure TransferState (α : Type) where
  transferred : List α
  asyncHandoff : Option α
  remaining : List α
deriving DecidableEq, Repr

/-- The drain loop of UpdateProviderConcurrency (lines 351-388) over
the buffered messages of the old queue, with `free` free slots in the new
queue. -/
def drainAndTransfer {α : Type} : Nat → List α → TransferState α
  | _, [] => ⟨[], none, []⟩
  | 0, m :: rest => ⟨[], some m, rest⟩
  | free + 1, m :: rest =>
    let s := drainAndTransfer free rest
    ⟨m :: s.transferred, s.asyncHandoff, s.remaining⟩

/- ----------------------------------------------------------------
   Theorems.
   ---------------------------------------------------------------- -/

/-- C4: queue admission first tries a non-blocking send (space and a
live context always admit); with a full queue, a live context and the
drop-excess flag set, admission fails with the queue-full error
regardless of any event that might fire later (no blocking); with the
flag unset it blocks until space (admitting) or cancellation (failing
with the cancellation error). -/
theorem c4_admission_policy :
    (∀ (d : Bool) (t e : AdmitEvent),
      admitToQueue false false d t e = AdmitOutcome.enqueued) ∧
    (∀ (t e : AdmitEvent),
      admitToQueue true false true t e =
        AdmitOutcome.dropped "request dropped: queue is full") ∧
    (∀ (t : AdmitEvent),
      admitToQueue true false false t AdmitEvent.space =
        AdmitOutcome.enqueued) ∧
    (∀ (t : AdmitEvent),
      admitToQueue true false false t AdmitEvent.cancel =
        AdmitOutcome.cancelled "request cancelled while waiting for queue space") :=
  ⟨fun _ _ _ => rfl, fun _ _ => rfl, fun _ => rfl, fun _ => rfl⟩

/-- C8 counterexample: the dispatcher does not merge MCP tool
descriptors for transcription-stream requests (tryStreamRequest line
1021 excludes them), although it does for non-streaming
transcription — refuting the claim that the merge happens for every
kind that is not embedding and not speech. -/
theorem c8_transcription_stream_not_merged :
    mcpToolsMerged RequestType.transcriptionStream = false ∧
      mcpToolsMerged RequestType.transcription = true := by
  decide

/-- C8 amended: with an MCP manager configured, tool descriptors are
merged for exactly the kinds that are not embedding, not speech, not
speech-stream and not transcription-stream. -/
theorem c8_merge_characterization :
    ∀ rt : RequestType,
      mcpToolsMerged rt =
        !(rt == RequestType.embedding || rt == RequestType.speech ||
          rt == RequestType.speechStream || rt == RequestType.transcriptionStream) := by
  intro rt
  cases rt <;> rfl

/-- C1: a non-streaming admission whose first adapter call fails with
a retryable 503 (IsBifrostError false, no cancellation) and whose
second call would succeed makes exactly one adapter call and ends with
the 503 error: the break on bifrost.go line 1174 fires on every
non-streaming error, so the retry decision of lines 1181-1186 is never
reached and the claimed second attempt never happens. -/
theorem c1_no_retry_on_retryable_503 :
    workerAttempts false
      (fun n =>
        if n == 0 then
          AdapterOutcome.fail
            ⟨false, some 503, ⟨none, "service unavailable", none⟩, none, ""⟩
        else AdapterOutcome.ok ⟨"r2"⟩) 2 =
    (1, AdapterOutcome.fail
      ⟨false, some 503, ⟨none, "service unavailable", none⟩, none, ""⟩) := by
  decide

/-- C10: with two keys that support the model and whose scaled integer
weights sum to zero, the weighted-random branch reaches
rand.Intn(totalWeight) with totalWeight = 0, which panics — the
selection is not total, despite the fall-back-to-first-key intent of
line 1468. -/
theorem c10_zero_weight_sum_panics :
    selectKeyFromProviderForModel "openai" "m"
      [⟨"k1", ["m"], 0⟩, ⟨"k2", ["m"], 0⟩] 0 =
    KeySelection.panicked "invalid argument to Intn" := by
  have hw : goInt100 0 = 0 := by
    have h100 : ((0 : Rat) * 100) = 0 := by norm_num
    simp [goInt100, h100, Rat.num_zero, Rat.den_zero]
  have hfilter :
      ([⟨"k1", ["m"], 0⟩, ⟨"k2", ["m"], 0⟩] : List Key).filter
        (keySupportsModel "openai" "m") =
      [⟨"k1", ["m"], 0⟩, ⟨"k2", ["m"], 0⟩] := rfl
  simp only [selectKeyFromProviderForModel, List.isEmpty_cons, hfilter,
    Bool.false_eq_true, if_false, selectFromSupported, List.map_cons,
    List.map_nil, List.sum_cons, List.sum_nil, hw]
  norm_num

/-- C7 counterexample: with one free slot in the new queue and three
buffered messages, the drain loop forwards the first, hands the second
to the bounded 5-second transfer, and leaves the third in the old
queue — so the third neither reaches the new pool via the transfer nor
receives a transfer-timeout error; it is left for the departing old
workers. -/
theorem c7_third_message_left_in_old_queue :
    drainAndTransfer 1 [1, 2, 3] = ⟨[1], some 2, [3]⟩ ∧
      (drainAndTransfer 1 [1, 2, 3]).remaining ≠ [] := by
  decide

/-- C7 amended: the drain loop partitions the buffered messages into
the first min(free, N) (forwarded to the new queue), the message at
position free, if any (handed to the bounded 5-second transfer, hence
a new-pool worker or an explicit timeout error), and the messages
after it (left in the old queue, which is closed next so the departing
old workers drain them) — the three dispositions together are exactly
the original buffer, so no message is silently dropped. -/
theorem c7_drain_partition :
    ∀ (α : Type) (free : Nat) (msgs : List α),
      drainAndTransfer free msgs =
        ⟨msgs.take free, msgs[free]?, msgs.drop (free + 1)⟩ ∧
      (drainAndTransfer free msgs).transferred ++
        (drainAndTransfer free msgs).asyncHandoff.toList ++
        (drainAndTransfer free msgs).remaining = msgs := by
  intro α free msgs
  induction msgs generalizing free with
  | nil =>
    cases free <;> refine ⟨?_, ?_⟩ <;> simp [drainAndTransfer]
  | cons m rest ih =>
    cases free with
    | zero => refine ⟨?_, ?_⟩ <;> simp [drainAndTransfer]
    | succ f =>
      obtain ⟨h1, h2⟩ := ih f
      refine ⟨?_, ?_⟩
      · simp [drainAndTransfer, h1]
      · simp [drainAndTransfer, h1] at h2 ⊢
        simpa using h2

/-- C5: after the post-hook loop, when both a response and an error
are present the error is returned unless it is structurally empty (no
status code, no type, empty message, no cause), in which case the
response is returned with no error. -/
theorem c5_error_wins_unless_structurally_empty :
    ∀ (plugins : List PluginHooks) (resp0 : Option BifrostResponse)
      (err0 : Option BifrostError) (count : Nat) (r : BifrostResponse)
      (e : BifrostError) (tr : List String),
      runPostHooksLoop resp0 err0
          ((plugins.take (min count plugins.length)).reverse) =
        (some r, some e, tr) →
      runPostHooks plugins resp0 err0 count =
        (if isEmptyError e then (some r, none, tr)
         else (some r, some e, tr)) := by
  intro plugins resp0 err0 count r e tr h
  simp only [runPostHooks, h, reconcilePostHookResult, Option.isSome_some,
    Bool.true_and]
  by_cases he : isEmptyError e
  · simp [he]
  · simp [he]

/-- C5 witness: one post-hook run ending with both a response and a
non-empty error keeps the error. -/
theorem c5_error_wins_witness :
    runPostHooks [] (some ⟨"r"⟩)
      (some ⟨false, some 500, ⟨none, "boom", none⟩, none, ""⟩) 0 =
    (some ⟨"r"⟩, some ⟨false, some 500, ⟨none, "boom", none⟩, none, ""⟩, []) := by
  have h := c5_error_wins_unless_structurally_empty [] (some ⟨"r"⟩)
    (some ⟨false, some 500, ⟨none, "boom", none⟩, none, ""⟩) 0 ⟨"r"⟩
    ⟨false, some 500, ⟨none, "boom", none⟩, none, ""⟩ [] rfl
  simpa [isEmptyError] using h

/-- C6 counterexample: a key whose model list contains the requested
model but whose value is empty survives the filter as the claim words it, yet the
filter in the code (line 1435) drops it for a non-Vertex provider, so the
selector fails although the claim predicts this sole surviving key is
returned. -/
theorem c6_empty_value_key_dropped :
    claimKeySurvives "m" ⟨"", ["m"], 1⟩ = true ∧
    selectKeyFromProviderForModel "openai" "m" [⟨"", ["m"], 1⟩] 0 =
      KeySelection.failed "no keys found that support model: m" := by
  exact ⟨rfl, rfl⟩

/-- C6 amended: for a provider with at least one configured key, the
selector fails with the model-specific message exactly when no key
survives the filter of the code (model list contains the model and the
trimmed value is non-empty or the provider is Vertex, or the model
list is empty), and a sole surviving key is returned. -/
theorem c6_selection_characterization :
    ∀ (providerKey model : String) (keys : List Key) (randomValue : Int),
      keys ≠ [] →
      ((selectKeyFromProviderForModel providerKey model keys randomValue =
          KeySelection.failed ("no keys found that support model: " ++ model) ↔
        keys.filter (keySupportsModel providerKey model) = []) ∧
       ∀ k, keys.filter (keySupportsModel providerKey model) = [k] →
         selectKeyFromProviderForModel providerKey model keys randomValue =
           KeySelection.selected k) := by
  intro providerKey model keys randomValue hne
  have hempty : keys.isEmpty = false := by
    cases keys with
    | nil => exact absurd rfl hne
    | cons a l => rfl
  rcases hfil : keys.filter (keySupportsModel providerKey model) with _ | ⟨k, tl⟩
  · refine ⟨⟨fun _ => rfl, fun _ => ?_⟩, fun k hk => ?_⟩
    · simp [selectKeyFromProviderForModel, hempty, hfil, selectFromSupported]
    · exact absurd hk (by simp)
  · rcases tl with _ | ⟨k2, rest⟩
    · refine ⟨⟨fun h => ?_, fun h => ?_⟩, fun k0 hk0 => ?_⟩
      · simp [selectKeyFromProviderForModel, hempty, hfil, selectFromSupported] at h
      · exact absurd h (by simp)
      · obtain ⟨rfl, -⟩ : k = k0 ∧ ([] : List Key) = [] := by
          simpa using hk0
        simp [selectKeyFromProviderForModel, hempty, hfil, selectFromSupported]
    · have hnotfail :
          selectFromSupported model randomValue (k :: k2 :: rest) ≠
            KeySelection.failed ("no keys found that support model: " ++ model) := by
        simp only [selectFromSupported]
        split
        · simp
        · rcases hpick : pickByWeight randomValue (k :: k2 :: rest) 0 with _ | kk <;>
            simp [hpick]
      refine ⟨⟨fun h => ?_, fun h => ?_⟩, fun k0 hk0 => ?_⟩
      · rw [selectKeyFromProviderForModel, if_neg (by simp [hempty]), hfil] at h
        exact absurd h hnotfail
      · exact absurd h (by simp)
      · exact absurd hk0 (by simp)

/-- C6 witness: a single key supporting the model is its own sole
survivor and is returned. -/
theorem c6_selection_witness :
    (selectKeyFromProviderForModel "openai" "m" [⟨"k", ["m"], 1⟩] 0 =
        KeySelection.failed ("no keys found that support model: " ++ "m") ↔
      ([⟨"k", ["m"], 1⟩] : List Key).filter (keySupportsModel "openai" "m") = []) ∧
    ∀ k, ([⟨"k", ["m"], 1⟩] : List Key).filter (keySupportsModel "openai" "m") = [k] →
      selectKeyFromProviderForModel "openai" "m" [⟨"k", ["m"], 1⟩] 0 =
        KeySelection.selected k :=
  c6_selection_characterization "openai" "m" [⟨"k", ["m"], 1⟩] 0 (by simp)

/- ----------------------------------------------------------------
   Pipeline trace lemmas (C2).
   ---------------------------------------------------------------- -/

/-- The pre-hook loop returns a count bounded by the number of plugins,
a trace that is the names of the first count plugins, and a full count
when no short-circuit occurred. -/
theorem runPreHooks_spec :
    ∀ (plugins : List PluginHooks) (req : Option BifrostRequest),
      (runPreHooks req plugins).2.2.1 ≤ plugins.length ∧
      (runPreHooks req plugins).2.2.2 =
        (plugins.take (runPreHooks req plugins).2.2.1).map PluginHooks.name ∧
      ((runPreHooks req plugins).2.1 = none →
        (runPreHooks req plugins).2.2.1 = plugins.length) := by
  intro plugins
  induction plugins with
  | nil => intro req; exact ⟨Nat.le_refl 0, rfl, fun _ => rfl⟩
  | cons p rest ih =>
    intro req
    obtain ⟨ih1, ih2, ih3⟩ := ih (p.preHook req).1
    rcases h : (p.preHook req).2.1 with _ | sc
    · refine ⟨?_, ?_, ?_⟩
      · simp only [runPreHooks, h, List.length_cons]
        omega
      · simp only [runPreHooks, h, List.take_succ_cons, List.map_cons,
          List.cons.injEq, true_and]
        exact ih2
      · intro hnone
        simp only [runPreHooks, h] at hnone ⊢
        simpa using ih3 hnone
    · refine ⟨?_, ?_, ?_⟩
      · simp only [runPreHooks, h, List.length_cons]
        omega
      · simp only [runPreHooks, h, List.take_succ_cons, List.take_zero,
          List.map_cons, List.map_nil]
      · intro hnone
        simp only [runPreHooks, h] at hnone
        exact Option.noConfusion hnone

/-- The post-hook loop visits every plugin of its list, in order. -/
theorem runPostHooksLoop_trace :
    ∀ (l : List PluginHooks) (resp : Option BifrostResponse)
      (err : Option BifrostError),
      (runPostHooksLoop resp err l).2.2 = l.map PluginHooks.name := by
  intro l
  induction l with
  | nil => intro resp err; rfl
  | cons p rest ih =>
    intro resp err
    simp only [runPostHooksLoop, List.map_cons, List.cons.injEq, true_and]
    exact ih _ _

/-- RunPostHooks invokes exactly the post-hooks of the first
min(count, length) plugins, in reverse registration order. -/
theorem runPostHooks_trace :
    ∀ (plugins : List PluginHooks) (resp : Option BifrostResponse)
      (err : Option BifrostError) (count : Nat),
      (runPostHooks plugins resp err count).2.2 =
        ((plugins.take (min count plugins.length)).map PluginHooks.name).reverse := by
  intro plugins resp err count
  simp only [runPostHooks, runPostHooksLoop_trace, List.map_reverse]

/-- finishPipeline records the end mode it is given. -/
theorem finishPipeline_endMode :
    ∀ (out : Option BifrostResponse × Option BifrostError × List String)
      (mode : PipelineEnd) (c : Nat) (t : List String),
      (finishPipeline out mode c t).endMode = mode := by
  intro out mode c t
  rcases out with ⟨r, e, tr⟩
  cases e <;> rfl

/-- finishPipeline records the pre-hook count it is given. -/
theorem finishPipeline_preCount :
    ∀ (out : Option BifrostResponse × Option BifrostError × List String)
      (mode : PipelineEnd) (c : Nat) (t : List String),
      (finishPipeline out mode c t).preCount = c := by
  intro out mode c t
  rcases out with ⟨r, e, tr⟩
  cases e <;> rfl

/-- finishPipeline records the pre-hook trace it is given. -/
theorem finishPipeline_preTrace :
    ∀ (out : Option BifrostResponse × Option BifrostError × List String)
      (mode : PipelineEnd) (c : Nat) (t : List String),
      (finishPipeline out mode c t).preTrace = t := by
  intro out mode c t
  rcases out with ⟨r, e, tr⟩
  cases e <;> rfl

/-- finishPipeline keeps the post-hook trace of its input. -/
theorem finishPipeline_postTrace :
    ∀ (out : Option BifrostResponse × Option BifrostError × List String)
      (mode : PipelineEnd) (c : Nat) (t : List String),
      (finishPipeline out mode c t).postTrace = out.2.2 := by
  intro out mode c t
  rcases out with ⟨r, e, tr⟩
  cases e <;> rfl

/-- A pass-through plugin used in concrete runs: no short-circuit, no
transformation. -/
def passThroughPlugin (nm : String) : PluginHooks :=
  ⟨nm, fun r => (r, none, none), fun r e => (r, e, none)⟩

/-- A plugin whose pre-hook short-circuits with neither a response nor
an error (both pointers nil), as the PluginShortCircuit type allows. -/
def emptyShortCircuitPlugin (nm : String) : PluginHooks :=
  ⟨nm, fun r => (r, some ⟨none, none⟩, none), fun r e => (r, e, none)⟩

/-- A sample chat request. -/
def sampleChatRequest : BifrostRequest :=
  ⟨"openai", "gpt-4o-mini", ⟨none, some ["hi"], none, none, none⟩, []⟩

/-- C2 counterexample: with two plugins whose first emits a
short-circuit carrying neither a response nor an error, only one
pre-hook runs (N = 1), yet the pipeline proceeds to the adapter and
runs the post-hooks of BOTH plugins (tryRequest falls past the nil
checks of lines 941 and 949 and later passes len(plugins) on line
989) — the post-hooks are not those of the N executed plugins. -/
theorem c2_empty_short_circuit_runs_all_post_hooks :
    (tryRequestPipeline [emptyShortCircuitPlugin "p1", passThroughPlugin "p2"]
        (fun _ => AdapterOutcome.ok ⟨"r1"⟩) sampleChatRequest).preCount = 1 ∧
    (tryRequestPipeline [emptyShortCircuitPlugin "p1", passThroughPlugin "p2"]
        (fun _ => AdapterOutcome.ok ⟨"r1"⟩) sampleChatRequest).postTrace =
      ["p2", "p1"] ∧
    (tryRequestPipeline [emptyShortCircuitPlugin "p1", passThroughPlugin "p2"]
        (fun _ => AdapterOutcome.ok ⟨"r1"⟩) sampleChatRequest).postTrace ≠
      ((tryRequestPipeline [emptyShortCircuitPlugin "p1", passThroughPlugin "p2"]
          (fun _ => AdapterOutcome.ok ⟨"r1"⟩) sampleChatRequest).preTrace).reverse := by
  refine ⟨rfl, rfl, ?_⟩
  decide

/-- On the adapter leg, provided the run did not end at the nil-request
guard, the recorded traces satisfy the reverse-prefix property when the
pre-count equals the number of plugins. -/
theorem tryRequestAdapterLeg_traces :
    ∀ (plugins : List PluginHooks) (adapter : BifrostRequest → AdapterOutcome)
      (preReq : Option BifrostRequest) (n : Nat) (tr : List String),
      tr = (plugins.take n).map PluginHooks.name →
      ((tryRequestAdapterLeg plugins adapter preReq n tr).endMode =
          PipelineEnd.shortCircuitResponse ∨
       (tryRequestAdapterLeg plugins adapter preReq n tr).endMode =
          PipelineEnd.shortCircuitError ∨
       (((tryRequestAdapterLeg plugins adapter preReq n tr).endMode =
            PipelineEnd.adapterSuccess ∨
         (tryRequestAdapterLeg plugins adapter preReq n tr).endMode =
            PipelineEnd.adapterFailure) ∧
        (tryRequestAdapterLeg plugins adapter preReq n tr).preCount =
          plugins.length)) →
      (tryRequestAdapterLeg plugins adapter preReq n tr).preTrace =
        (plugins.take
          ((tryRequestAdapterLeg plugins adapter preReq n tr).preCount)).map
          PluginHooks.name ∧
      (tryRequestAdapterLeg plugins adapter preReq n tr).postTrace =
        ((tryRequestAdapterLeg plugins adapter preReq n tr).preTrace).reverse := by
  intro plugins adapter preReq n tr htr h
  rcases preReq with _ | rq
  · exfalso
    rcases h with h | h | ⟨h | h, hc⟩ <;> exact PipelineEnd.noConfusion h
  · have hparts :
        (tryRequestAdapterLeg plugins adapter (some rq) n tr).preTrace = tr ∧
        (tryRequestAdapterLeg plugins adapter (some rq) n tr).preCount = n ∧
        (tryRequestAdapterLeg plugins adapter (some rq) n tr).postTrace =
          (plugins.map PluginHooks.name).reverse ∧
        ((tryRequestAdapterLeg plugins adapter (some rq) n tr).endMode =
            PipelineEnd.adapterSuccess ∨
         (tryRequestAdapterLeg plugins adapter (some rq) n tr).endMode =
            PipelineEnd.adapterFailure) := by
      simp only [tryRequestAdapterLeg]
      rcases adapter rq with r | e
      · refine ⟨finishPipeline_preTrace _ _ _ _, finishPipeline_preCount _ _ _ _,
          ?_, Or.inl (finishPipeline_endMode _ _ _ _)⟩
        rw [finishPipeline_postTrace, runPostHooks_trace]
        simp
      · refine ⟨finishPipeline_preTrace _ _ _ _, finishPipeline_preCount _ _ _ _,
          ?_, Or.inr (finishPipeline_endMode _ _ _ _)⟩
        rw [finishPipeline_postTrace, runPostHooks_trace]
        simp
    obtain ⟨hpt, hpc, hpost, hmode⟩ := hparts
    have hn : n = plugins.length := by
      rcases h with h | h | ⟨-, hc⟩
      · rcases hmode with hm | hm <;> { rw [hm] at h; exact PipelineEnd.noConfusion h }
      · rcases hmode with hm | hm <;> { rw [hm] at h; exact PipelineEnd.noConfusion h }
      · rw [hpc] at hc; exact hc
    constructor
    · rw [hpt, hpc, htr, hn, List.take_length]
    · rw [hpost, hpt, htr, hn, List.take_length]

/-- C2 amended: whenever the pipeline ends by a short-circuit carrying
a response or an error, or ends on the adapter path with every
pre-hook having run (which is always the case unless a plugin emitted
a short-circuit carrying neither field), the executed pre-hooks are
the first N plugins in registration order and the post-hooks run are
exactly those same N plugins in reverse order. -/
theorem c2_post_hooks_reverse_executed :
    ∀ (plugins : List PluginHooks) (adapter : BifrostRequest → AdapterOutcome)
      (req : BifrostRequest),
      ((tryRequestPipeline plugins adapter req).endMode =
          PipelineEnd.shortCircuitResponse ∨
       (tryRequestPipeline plugins adapter req).endMode =
          PipelineEnd.shortCircuitError ∨
       (((tryRequestPipeline plugins adapter req).endMode =
            PipelineEnd.adapterSuccess ∨
         (tryRequestPipeline plugins adapter req).endMode =
            PipelineEnd.adapterFailure) ∧
        (tryRequestPipeline plugins adapter req).preCount = plugins.length)) →
      (tryRequestPipeline plugins adapter req).preTrace =
        (plugins.take (tryRequestPipeline plugins adapter req).preCount).map
          PluginHooks.name ∧
      (tryRequestPipeline plugins adapter req).postTrace =
        ((tryRequestPipeline plugins adapter req).preTrace).reverse := by
  intro plugins adapter req
  obtain ⟨hle0, htr0, -⟩ := runPreHooks_spec plugins (some req)
  rcases hpre : runPreHooks (some req) plugins with ⟨preReq, sc, n, tr⟩
  have hle : n ≤ plugins.length := by simpa [hpre] using hle0
  have htr : tr = (plugins.take n).map PluginHooks.name := by
    simpa [hpre] using htr0
  simp only [tryRequestPipeline, hpre]
  rcases sc with _ | ⟨scr, sce⟩
  · exact tryRequestAdapterLeg_traces plugins adapter preReq n tr htr
  · rcases scr with _ | r0
    · rcases sce with _ | e0
      · exact tryRequestAdapterLeg_traces plugins adapter preReq n tr htr
      · -- short-circuit with an error
        intro _
        constructor
        · rw [finishPipeline_preTrace, finishPipeline_preCount]
          exact htr
        · rw [finishPipeline_postTrace, finishPipeline_preTrace,
            runPostHooks_trace, Nat.min_eq_left hle, htr]
    · -- short-circuit with a response
      intro _
      constructor
      · rw [finishPipeline_preTrace, finishPipeline_preCount]
        exact htr
      · rw [finishPipeline_postTrace, finishPipeline_preTrace,
          runPostHooks_trace, Nat.min_eq_left hle, htr]

/-- C2 witness: a single pass-through plugin with a successful adapter
call runs its post-hook exactly once, over the executed prefix, in
reverse. -/
theorem c2_post_hooks_reverse_executed_witness :
    (tryRequestPipeline [passThroughPlugin "p"]
        (fun _ => AdapterOutcome.ok ⟨"r1"⟩) sampleChatRequest).preTrace =
      ([passThroughPlugin "p"].take
        ((tryRequestPipeline [passThroughPlugin "p"]
          (fun _ => AdapterOutcome.ok ⟨"r1"⟩) sampleChatRequest).preCount)).map
        PluginHooks.name ∧
    (tryRequestPipeline [passThroughPlugin "p"]
        (fun _ => AdapterOutcome.ok ⟨"r1"⟩) sampleChatRequest).postTrace =
      ((tryRequestPipeline [passThroughPlugin "p"]
          (fun _ => AdapterOutcome.ok ⟨"r1"⟩) sampleChatRequest).preTrace).reverse :=
  c2_post_hooks_reverse_executed [passThroughPlugin "p"]
    (fun _ => AdapterOutcome.ok ⟨"r1"⟩) sampleChatRequest
    (Or.inr (Or.inr ⟨Or.inl rfl, rfl⟩))

/- ----------------------------------------------------------------
   Fallback cascade lemmas (C3, C9).
   ---------------------------------------------------------------- -/

/-- When the primary error is a cancellation, forbids fallbacks, or
the fallback list is empty, shouldTryFallbacks declines and tags the
error with the primary provider. -/
theorem shouldTryFallbacks_no_cascade :
    ∀ (req : BifrostRequest) (e : BifrostError),
      (isCancelledError e || deniesFallbacks e || req.fallbacks.isEmpty) = true →
      shouldTryFallbacks req (some e) =
        (false, some (tagProvider e req.provider)) := by
  intro req e h
  by_cases h1 : isCancelledError e
  · simp [shouldTryFallbacks, h1]
  · by_cases h2 : deniesFallbacks e
    · simp [shouldTryFallbacks, h1, h2]
    · have h3 : req.fallbacks.isEmpty = true := by
        simpa [h1, h2] using h
      simp [shouldTryFallbacks, h1, h2, h3]

/-- When the primary error is neither a cancellation nor a
no-fallbacks error and the fallback list is non-empty,
shouldTryFallbacks approves the cascade and leaves the error as is. -/
theorem shouldTryFallbacks_cascade :
    ∀ (req : BifrostRequest) (e : BifrostError),
      (isCancelledError e || deniesFallbacks e || req.fallbacks.isEmpty) = false →
      shouldTryFallbacks req (some e) = (true, some e) := by
  intro req e h
  have h1 : isCancelledError e = false := by
    rcases Bool.or_eq_false_iff.mp h with ⟨h', -⟩
    exact (Bool.or_eq_false_iff.mp h').1
  have h2 : deniesFallbacks e = false := by
    rcases Bool.or_eq_false_iff.mp h with ⟨h', -⟩
    exact (Bool.or_eq_false_iff.mp h').2
  have h3 : req.fallbacks.isEmpty = false := (Bool.or_eq_false_iff.mp h).2
  simp [shouldTryFallbacks, h1, h2, h3]

/-- A fallback entry that is skipped (no config) or fails with a
cascade-continuing error leaves the rest of the loop unchanged. -/
theorem runFallbacks_skip :
    ∀ (hasConfig : String → Bool) (attempt : String → String → AdapterOutcome)
      (req : BifrostRequest) (perr : BifrostError) (fb : Fallback)
      (l : List Fallback),
      fallbackSkipsOrFails hasConfig attempt fb = true →
      runFallbacks hasConfig attempt req perr (fb :: l) =
        runFallbacks hasConfig attempt req perr l := by
  intro hasConfig attempt req perr fb l h
  cases hcfg : hasConfig fb.provider with
  | false => simp [runFallbacks, hcfg]
  | true =>
    simp only [fallbackSkipsOrFails, hcfg, Bool.not_true, Bool.false_or] at h
    rcases ha : attempt fb.provider fb.model with r | fe
    · rw [ha] at h
      simp at h
    · rw [ha] at h
      simp only [Bool.and_eq_true, Bool.not_eq_true'] at h
      obtain ⟨h1, h2⟩ := h
      simp [runFallbacks, hcfg, ha, shouldContinueWithFallbacks, h1, h2]

/-- When every fallback entry is skipped or fails with a
cascade-continuing error, the loop exhausts the list and returns the
primary error tagged with the primary provider. -/
theorem runFallbacks_all_fail :
    ∀ (hasConfig : String → Bool) (attempt : String → String → AdapterOutcome)
      (req : BifrostRequest) (perr : BifrostError) (l : List Fallback),
      (∀ fb ∈ l, fallbackSkipsOrFails hasConfig attempt fb = true) →
      runFallbacks hasConfig attempt req perr l =
        (none, some (tagProvider perr req.provider)) := by
  intro hasConfig attempt req perr l
  induction l with
  | nil => intro _; rfl
  | cons fb rest ih =>
    intro h
    rw [runFallbacks_skip hasConfig attempt req perr fb rest
      (h fb (List.mem_cons_self fb rest))]
    exact ih fun g hg => h g (List.mem_cons_of_mem fb hg)

/-- The first fallback entry with a config whose attempt succeeds,
after any run of skipped or cascade-continuing entries, produces its
response. -/
theorem runFallbacks_first_success :
    ∀ (hasConfig : String → Bool) (attempt : String → String → AdapterOutcome)
      (req : BifrostRequest) (perr : BifrostError) (pre post : List Fallback)
      (fb : Fallback) (r : BifrostResponse),
      (∀ g ∈ pre, fallbackSkipsOrFails hasConfig attempt g = true) →
      hasConfig fb.provider = true →
      attempt fb.provider fb.model = AdapterOutcome.ok r →
      runFallbacks hasConfig attempt req perr (pre ++ fb :: post) =
        (some r, none) := by
  intro hasConfig attempt req perr pre post fb r hpre hcfg ha
  induction pre with
  | nil =>
    simp [runFallbacks, hcfg, ha]
  | cons g rest ih =>
    rw [List.cons_append, runFallbacks_skip hasConfig attempt req perr g
      (rest ++ fb :: post) (hpre g (List.mem_cons_self g rest))]
    exact ih fun g0 hg0 => hpre g0 (List.mem_cons_of_mem g hg0)

/-- C3: the fallback cascade is entered exactly when the primary
attempt errs with a non-cancellation error that does not forbid
fallbacks and the fallback list is non-empty; entries are tried in
list order with the first success returned; and when every entry is
skipped or fails without aborting, the original primary error is
returned tagged with the primary provider. -/
theorem c3_fallback_cascade :
    ∀ (validate : BifrostRequest → Option BifrostError)
      (hasConfig : String → Bool)
      (attempt : String → String → AdapterOutcome)
      (req : BifrostRequest) (e : BifrostError),
      validate req = none →
      attempt req.provider req.model = AdapterOutcome.fail e →
      (((isCancelledError e || deniesFallbacks e || req.fallbacks.isEmpty) = true →
        handleRequest validate hasConfig attempt req =
          (none, some (tagProvider e req.provider))) ∧
       ((isCancelledError e || deniesFallbacks e || req.fallbacks.isEmpty) = false →
        handleRequest validate hasConfig attempt req =
          runFallbacks hasConfig attempt req e req.fallbacks) ∧
       (∀ (pre post : List Fallback) (fb : Fallback) (r : BifrostResponse),
        (∀ g ∈ pre, fallbackSkipsOrFails hasConfig attempt g = true) →
        hasConfig fb.provider = true →
        attempt fb.provider fb.model = AdapterOutcome.ok r →
        runFallbacks hasConfig attempt req e (pre ++ fb :: post) =
          (some r, none)) ∧
       (∀ l : List Fallback,
        (∀ fb ∈ l, fallbackSkipsOrFails hasConfig attempt fb = true) →
        runFallbacks hasConfig attempt req e l =
          (none, some (tagProvider e req.provider)))) := by
  intro validate hasConfig attempt req e hv ha
  refine ⟨?_, ?_, ?_, ?_⟩
  · intro h
    simp [handleRequest, hv, ha, shouldTryFallbacks_no_cascade req e h]
  · intro h
    simp [handleRequest, hv, ha, shouldTryFallbacks_cascade req e h]
  · intro pre post fb r hpre hcfg hok
    exact runFallbacks_first_success hasConfig attempt req e pre post fb r
      hpre hcfg hok
  · intro l hl
    exact runFallbacks_all_fail hasConfig attempt req e l hl

/-- C3 witness: spec scenario 3 — the primary fails with a 500 after
which the single anthropic fallback succeeds, and the caller receives
the response of the fallback. -/
theorem c3_fallback_cascade_witness :
    handleRequest (fun _ => none) (fun _ => true)
      (fun p _ =>
        if p == "openai" then
          AdapterOutcome.fail ⟨false, some 500, ⟨none, "err", none⟩, none, ""⟩
        else AdapterOutcome.ok ⟨"r3"⟩)
      ⟨"openai", "gpt-4o", ⟨none, some ["hi"], none, none, none⟩,
        [⟨"anthropic", "claude-3-sonnet"⟩]⟩ =
    (some ⟨"r3"⟩, none) := by
  have h := c3_fallback_cascade (fun _ => none) (fun _ => true)
    (fun p _ =>
      if p == "openai" then
        AdapterOutcome.fail ⟨false, some 500, ⟨none, "err", none⟩, none, ""⟩
      else AdapterOutcome.ok ⟨"r3"⟩)
    ⟨"openai", "gpt-4o", ⟨none, some ["hi"], none, none, none⟩,
      [⟨"anthropic", "claude-3-sonnet"⟩]⟩
    ⟨false, some 500, ⟨none, "err", none⟩, none, ""⟩ rfl rfl
  have h1 := h.2.1 rfl
  have h2 := h.2.2.1 [] [] ⟨"anthropic", "claude-3-sonnet"⟩ ⟨"r3"⟩
    (fun g hg => absurd hg (List.not_mem_nil g)) rfl rfl
  rw [h1]
  simpa using h2

/-- When shouldTryFallbacks declines the cascade for an actual error,
the error it returns is the primary error tagged with the provider of the request. -/
theorem shouldTryFallbacks_stop :
    ∀ (req : BifrostRequest) (e : BifrostError),
      (shouldTryFallbacks req (some e)).1 = false →
      (shouldTryFallbacks req (some e)).2 =
        some (tagProvider e req.provider) := by
  intro req e h
  by_cases h1 : isCancelledError e
  · simp [shouldTryFallbacks, h1]
  · by_cases h2 : deniesFallbacks e
    · simp [shouldTryFallbacks, h1, h2]
    · by_cases h3 : req.fallbacks.isEmpty
      · simp [shouldTryFallbacks, h1, h2, h3]
      · simp [shouldTryFallbacks, h1, h2, h3] at h

/-- When shouldContinueWithFallbacks aborts the cascade, the error it
returns carries the provider tag of the failing fallback. -/
theorem shouldContinueWithFallbacks_stop :
    ∀ (fb : Fallback) (fe : BifrostError),
      (shouldContinueWithFallbacks fb fe).1 = false →
      (shouldContinueWithFallbacks fb fe).2.provider = fb.provider := by
  intro fb fe h
  by_cases h1 : isCancelledError fe
  · simp [shouldContinueWithFallbacks, h1, tagProvider]
  · by_cases h2 : deniesFallbacks fe
    · simp [shouldContinueWithFallbacks, h1, h2, tagProvider]
    · simp [shouldContinueWithFallbacks, h1, h2] at h

/-- Any error produced by the fallback loop carries either the tag of the primary
provider or the tag of one of the listed fallback providers. -/
theorem runFallbacks_error_provider :
    ∀ (hasConfig : String → Bool) (attempt : String → String → AdapterOutcome)
      (req : BifrostRequest) (perr : BifrostError) (l : List Fallback)
      (e : BifrostError),
      (runFallbacks hasConfig attempt req perr l).2 = some e →
      e.provider = req.provider ∨ e.provider ∈ l.map Fallback.provider := by
  intro hasConfig attempt req perr l
  induction l with
  | nil =>
    intro e h
    left
    simp only [runFallbacks, Option.some.injEq] at h
    rw [← h]
    rfl
  | cons fb rest ih =>
    intro e h
    simp only [runFallbacks] at h
    cases hcfg : hasConfig fb.provider with
    | false =>
      rw [if_pos (by simp [hcfg])] at h
      rcases ih e h with h' | h'
      · exact Or.inl h'
      · exact Or.inr (List.mem_cons_of_mem fb.provider h')
    | true =>
      rw [if_neg (by simp [hcfg])] at h
      rcases ha : attempt fb.provider fb.model with r | fe
      · rw [ha] at h
        exact Option.noConfusion h
      · rw [ha] at h
        dsimp only at h
        cases hcont : (shouldContinueWithFallbacks fb fe).1 with
        | true =>
          rw [if_pos hcont] at h
          rcases ih e h with h' | h'
          · exact Or.inl h'
          · exact Or.inr (List.mem_cons_of_mem fb.provider h')
        | false =>
          rw [if_neg (by simp [hcont])] at h
          simp only [Option.some.injEq] at h
          right
          rw [← h, shouldContinueWithFallbacks_stop fb fe hcont]
          exact List.mem_cons_self fb.provider (rest.map Fallback.provider)

/-- C9 counterexample: a chat request with nil chat input against the
openai provider receives the entry-validation error whose Provider
field is the zero value (the empty tag), not the provider that
produced it — ChatCompletionRequest (lines 208-219) never sets
Provider. -/
theorem c9_nil_input_error_untagged :
    (chatCompletionRequestMethod (fun _ => none) (fun _ => true)
        (fun _ _ => AdapterOutcome.ok ⟨"r"⟩)
        ⟨"openai", "gpt-4o", ⟨none, none, none, none, none⟩, []⟩).2 =
      some ⟨false, none,
        ⟨none, "chats not provided for chat completion request", none⟩,
        none, ""⟩ ∧
    ("" : String) ≠ "openai" := by
  exact ⟨rfl, by decide⟩

/-- C9 amended: every error returned by the chat entry point carries
the tag of the provider that produced it (the primary provider or one
of the fallback providers), except the input-presence validation error
at the public entry, which carries the empty (zero-value) tag. -/
theorem c9_error_provider_tagging :
    ∀ (validate : BifrostRequest → Option BifrostError)
      (hasConfig : String → Bool)
      (attempt : String → String → AdapterOutcome)
      (req : BifrostRequest) (e : BifrostError),
      (chatCompletionRequestMethod validate hasConfig attempt req).2 = some e →
      (req.input.chatCompletionInput = none ∧ e.provider = "") ∨
      e.provider = req.provider ∨
      e.provider ∈ req.fallbacks.map Fallback.provider := by
  intro validate hasConfig attempt req e h
  rcases hin : req.input.chatCompletionInput with _ | chat
  · left
    simp only [chatCompletionRequestMethod, hin, Option.some.injEq] at h
    exact ⟨rfl, by rw [← h]⟩
  · right
    simp only [chatCompletionRequestMethod, hin] at h
    simp only [handleRequest] at h
    rcases hv : validate req with _ | verr
    · rw [hv] at h
      rcases ha : attempt req.provider req.model with r | pe
      · rw [ha] at h
        exact Option.noConfusion h
      · rw [ha] at h
        dsimp only at h
        cases hdec : (shouldTryFallbacks req (some pe)).1 with
        | true =>
          rw [if_pos hdec] at h
          exact runFallbacks_error_provider hasConfig attempt req pe
            req.fallbacks e h
        | false =>
          rw [if_neg (by simp [hdec])] at h
          rw [shouldTryFallbacks_stop req pe hdec] at h
          simp only [Option.some.injEq] at h
          left
          rw [← h]
          rfl
    · rw [hv] at h
      simp only [Option.some.injEq] at h
      left
      rw [← h]
      rfl

/-- C9 witness: a primary failure with no fallbacks surfaces an error
tagged with the primary provider. -/
theorem c9_error_provider_tagging_witness :
    ((⟨"openai", "gpt-4o", ⟨none, some ["hi"], none, none, none⟩,
        []⟩ : BifrostRequest).input.chatCompletionInput = none ∧
      (⟨false, some 500, ⟨none, "err", none⟩, none, "openai"⟩ :
        BifrostError).provider = "") ∨
    (⟨false, some 500, ⟨none, "err", none⟩, none, "openai"⟩ :
      BifrostError).provider =
      (⟨"openai", "gpt-4o", ⟨none, some ["hi"], none, none, none⟩,
        []⟩ : BifrostRequest).provider ∨
    (⟨false, some 500, ⟨none, "err", none⟩, none, "openai"⟩ :
      BifrostError).provider ∈
      (⟨"openai", "gpt-4o", ⟨none, some ["hi"], none, none, none⟩,
        []⟩ : BifrostRequest).fallbacks.map Fallback.provider :=
  c9_error_provider_tagging (fun _ => none) (fun _ => true)
    (fun _ _ =>
      AdapterOutcome.fail ⟨false, some 500, ⟨none, "err", none⟩, none, ""⟩)
    ⟨"openai", "gpt-4o", ⟨none, some ["hi"], none, none, none⟩, []⟩
    ⟨false, some 500, ⟨none, "err", none⟩, none, "openai"⟩ rfl

end Bifrost
